import Mathlib

/-!
Verification of the Infinidat storage reconciliation modules
(`infini_pool`, `infini_vol`, `infini_fs`, `infini_export`,
`infini_export_client`, `infini_host`).

Each module is embedded as a pure function from the validated invocation
parameters and the array's current state (as observed by the module's
lookups) to a `ModuleResult`: either `ok changed calls`, recording the
changed flag reported through `exit_json` together with the mutating
Array-Client calls issued in order, or `fail msg`, mirroring `fail_json`.
-/

/-- Outcome of one module invocation: `exit_json(changed=...)` together
with the trace of mutating array calls issued, or `fail_json(msg=...)`. -/
inductive ModuleResult (C : Type) where
  | ok (changed : Bool) (calls : List C)
  | fail (msg : String)
deriving DecidableEq, Repr

/-- The trace of mutating calls of a result (a failure issues none on the
paths modelled here: every `fail_json` in the sources fires before any
mutating call of its invocation). -/
def ModuleResult.calls {C : Type} : ModuleResult C → List C
  | .ok _ cs => cs
  | .fail _ => []

/-- The changed flag reported by `exit_json` (failures report none). -/
def ModuleResult.changed {C : Type} : ModuleResult C → Bool
  | .ok c _ => c
  | .fail _ => false

/-! ## Capacity values

The modules delegate capacity parsing and rounding to the external
`capacity` library (`Capacity(size)`, `.roundup(...)`, `KiB`, `TB`).
-/

/-- Value of a decimal digit string, as read left to right. -/
def digitsToNat (l : List Char) : Nat :=
  l.foldl (fun acc c => acc * 10 + (c.toNat - 48)) 0

/-- Modelled from the spec: byte multiplier of a capacity unit
(unit ∈ B, KB/KiB, MB/MiB, GB/GiB, TB/TiB, PB/PiB; decimal prefixes are
powers of 1000, binary prefixes powers of 1024), as implemented by the
external `capacity` library which is not part of this repository. -/
def unitBytes : String → Option Nat
  | "B" => some 1
  | "KB" => some 1000
  | "KiB" => some 1024
  | "MB" => some (1000 ^ 2)
  | "MiB" => some (1024 ^ 2)
  | "GB" => some (1000 ^ 3)
  | "GiB" => some (1024 ^ 3)
  | "TB" => some (1000 ^ 4)
  | "TiB" => some (1024 ^ 4)
  | "PB" => some (1000 ^ 5)
  | "PiB" => some (1024 ^ 5)
  | _ => none

/-- Modelled from the spec: `parse(text) -> Capacity` of the Capacity
Value component (the external `capacity` library): a string
`<number><unit>` denotes `number * unitBytes unit` bytes; anything else
is a validation error (`none`). -/
def Capacity.parse (s : String) : Option Nat :=
  let ds := s.toList.takeWhile Char.isDigit
  let rest := s.toList.dropWhile Char.isDigit
  if ds.isEmpty then none
  else (unitBytes (String.mk rest)).map (fun u => digitsToNat ds * u)

/-- Modelled from the spec: `roundup(alignment_bytes)` of the Capacity
Value component (the external `capacity` library):
`ceil(bytes / alignment_bytes) * alignment_bytes`. -/
def Capacity.roundup (x a : Nat) : Nat := ((x + a - 1) / a) * a

/-- `KiB` as imported from the `capacity` library. -/
def KiB : Nat := 1024

/-- The alignment `6 * 64 * KiB` used by `update_pool`. -/
def poolAlign : Nat := 6 * 64 * KiB

/-- The alignment `64 * KiB` used by `update_volume` / `update_filesystem`. -/
def volAlign : Nat := 64 * KiB

/-- Parse an optional capacity parameter: `none` when the parameter was
not supplied (Python falsy), `some none` on parse failure. Mirrors the
`if module.params[..]: try: Capacity(..) except: fail` validation in
`main`. -/
def parseOpt : Option String → Option (Option Nat)
  | none => some none
  | some s => (Capacity.parse s).map some

/-! ## infini_pool -/

/-- Mutating Array-Client calls the pool module can issue
(`system.pools.create`, `pool.update_physical_capacity`,
`pool.update_virtual_capacity`, `pool.update_ssd_enabled`,
`pool.delete`). -/
inductive PoolCall where
  | create (name : String) (physical_capacity virtual_capacity : Nat)
  | updatePhysicalCapacity (c : Nat)
  | updateVirtualCapacity (c : Nat)
  | updateSsdEnabled (b : Bool)
  | delete
deriving DecidableEq, Repr

/-- Pool attributes as observed through `pool.get_physical_capacity()`,
`pool.get_virtual_capacity()` and `pool.get_ssd_enabled()`. -/
structure PoolState where
  physical_capacity : Nat
  virtual_capacity : Nat
  ssd_enabled : Bool
deriving DecidableEq, Repr

/-- Parameters of one `infini_pool` invocation (credentials and system
excluded; `none` for an optional parameter that was not supplied). -/
structure PoolParams where
  name : String
  state : String
  size : Option String
  vsize : Option String
  ssd_cache : Bool
deriving DecidableEq, Repr

/-- `create_pool` of `infini_pool.py`, with the two capacity strings
already parsed: picks physical/virtual capacities (defaulting to 1TB,
and virtual defaulting to physical), issues the create call, disables
ssd caching when `ssd_cache` is false, exits with changed=true. -/
def create_pool (name : String) (size vsize : Option Nat) (ssd_cache : Bool) :
    ModuleResult PoolCall :=
  let tb : Nat := 1000 ^ 4
  let caps : Nat × Nat :=
    match size, vsize with
    | none, none => (tb, tb)
    | some s, none => (s, s)
    | none, some v => (tb, v)
    | some s, some v => (s, v)
  let base := [PoolCall.create name caps.1 caps.2]
  .ok true (if ssd_cache then base else base ++ [PoolCall.updateSsdEnabled false])

/-- `update_pool` of `infini_pool.py`: each supplied capacity is rounded
up to `6 * 64 * KiB` and compared against the pool; the ssd flag is
always compared; each differing field is updated independently. -/
def update_pool (size vsize : Option Nat) (ssd_cache : Bool) (pool : PoolState) :
    ModuleResult PoolCall :=
  let r1 : Bool × List PoolCall :=
    match size with
    | none => (false, [])
    | some s =>
      let pc := Capacity.roundup s poolAlign
      if pool.physical_capacity ≠ pc then (true, [PoolCall.updatePhysicalCapacity pc])
      else (false, [])
  let r2 : Bool × List PoolCall :=
    match vsize with
    | none => (false, [])
    | some v =>
      let vc := Capacity.roundup v poolAlign
      if pool.virtual_capacity ≠ vc then (true, [PoolCall.updateVirtualCapacity vc])
      else (false, [])
  let r3 : Bool × List PoolCall :=
    if pool.ssd_enabled ≠ ssd_cache then (true, [PoolCall.updateSsdEnabled ssd_cache])
    else (false, [])
  .ok (r1.1 || r2.1 || r3.1) (r1.2 ++ r2.2 ++ r3.2)

/-- `main` of `infini_pool.py`: argument validation (state choices, the
two capacity strings), then the present/absent dispatch on the pool
lookup. `pool` is the result of `get_pool` against the array. -/
def pool_main (p : PoolParams) (pool : Option PoolState) : ModuleResult PoolCall :=
  if p.state ≠ "present" ∧ p.state ≠ "absent" then
    .fail "value of state must be one of: present, absent"
  else
    match parseOpt p.size with
    | none => .fail "size (Physical Capacity) should be define in MB, GB, TB or PB units"
    | some sb =>
      match parseOpt p.vsize with
      | none => .fail "vsize (Virtual Capacity) should be define in MB, GB, TB or PB units"
      | some vb =>
        if p.state = "present" then
          match pool with
          | none => create_pool p.name sb vb p.ssd_cache
          | some st => update_pool sb vb p.ssd_cache st
        else
          match pool with
          | some _ => .ok true [PoolCall.delete]
          | none => .ok false []

/-- Modelled from the spec: effect of one pool call on the array (the
Array Client collaborator, outside this repository). Per §3 and the
source comment "Roundup the capacity to mimic Infinibox behaviour", the
array itself rounds pool capacities up to the 6·64·KiB boundary; a
freshly created pool has ssd caching enabled by default (§4.3). -/
def applyPoolCall (st : Option PoolState) : PoolCall → Option PoolState
  | .create _ p v =>
      some { physical_capacity := Capacity.roundup p poolAlign,
             virtual_capacity := Capacity.roundup v poolAlign,
             ssd_enabled := true }
  | .updatePhysicalCapacity c =>
      st.map fun s => { s with physical_capacity := Capacity.roundup c poolAlign }
  | .updateVirtualCapacity c =>
      st.map fun s => { s with virtual_capacity := Capacity.roundup c poolAlign }
  | .updateSsdEnabled b => st.map fun s => { s with ssd_enabled := b }
  | .delete => none

/-- Fold a call trace over the array's pool state. -/
def applyPoolCalls (st : Option PoolState) (cs : List PoolCall) : Option PoolState :=
  cs.foldl applyPoolCall st

/-- The `infini_pool` invocation of claim C1: `state=present`,
`size="10TB"`, no vsize, default ssd_cache. -/
def c1Params : PoolParams :=
  { name := "foo", state := "present", size := some "10TB", vsize := none, ssd_cache := true }

/-- C1: reconciling a nonexistent pool with size="10TB" issues exactly a
create call with physical = virtual = 10TB (= 10^13 bytes) and reports
changed=true; a second identical reconciliation against the resulting
array state issues no call at all and reports changed=false. -/
theorem pool_reconcile_10TB_idempotent :
    Capacity.parse "10TB" = some (10 * 1000 ^ 4)
    ∧ pool_main c1Params none
        = .ok true [PoolCall.create "foo" (10 * 1000 ^ 4) (10 * 1000 ^ 4)]
    ∧ pool_main c1Params
        (applyPoolCalls none (ModuleResult.calls (pool_main c1Params none)))
        = .ok false [] :=
  ⟨by decide, by decide, by decide⟩

/-! ## infini_export -/

/-- One NFS permission entry `{client, access, no_root_squash}`. The
sources compare entries via `frozenset(d.items())`, i.e. by the full
field tuple, which coincides with structural equality of this record. -/
structure PermEntry where
  client : String
  access : String
  no_root_squash : Bool
deriving DecidableEq, Repr

/-- The permission-list comparison of `update_export`:
`set(map(transform, current)) == set(map(transform, desired))` with
`transform(d) = frozenset(d.items())` — equality of the two lists as
finite sets of entries. -/
def permSetEq (l1 l2 : List PermEntry) : Bool :=
  decide (l1.toFinset = l2.toFinset)

/-- Mutating Array-Client calls the export modules can issue
(`system.exports.create`, `export.update_permissions`,
`export.delete`). -/
inductive ExportCall where
  | create (export_path filesystem : String)
  | updatePermissions (l : List PermEntry)
  | delete
deriving DecidableEq, Repr

/-- Export attributes as observed through `e.get_export_path()` and
`export.get_permissions()`. -/
structure ExportState where
  export_path : String
  permissions : List PermEntry
deriving DecidableEq, Repr

/-- `update_export` of `infini_export.py`: when the export was not
found, create it and push `client_list` only when one was supplied
(truthy); when it exists, push `client_list` only when supplied and its
entry set differs from the current permissions. -/
def update_export (name filesystem : String) (client_list : Option (List PermEntry))
    (exp : Option ExportState) : ModuleResult ExportCall :=
  match exp with
  | none =>
    let base := [ExportCall.create name filesystem]
    match client_list with
    | some l => if l ≠ [] then .ok true (base ++ [ExportCall.updatePermissions l])
                else .ok true base
    | none => .ok true base
  | some e =>
    match client_list with
    | some l =>
      if l ≠ [] then
        if permSetEq e.permissions l then .ok false []
        else .ok true [ExportCall.updatePermissions l]
      else .ok false []
    | none => .ok false []

/-- Parameters of one `infini_export` invocation. -/
structure ExportParams where
  name : String
  state : String
  filesystem : String
  client_list : Option (List PermEntry)
deriving DecidableEq, Repr

/-- `main` of `infini_export.py`: state validation, the filesystem
precondition, then the present/absent dispatch. `filesystem` is the
result of `get_filesystem` (`none` = not found), `export` the result of
`get_export`. -/
def export_main (p : ExportParams) (filesystem : Option Unit)
    (exp : Option ExportState) : ModuleResult ExportCall :=
  if p.state ≠ "present" ∧ p.state ≠ "absent" then
    .fail "value of state must be one of: present, absent"
  else if filesystem.isNone then
    .fail ("Filesystem " ++ p.filesystem ++ " not found")
  else if p.state = "present" then
    update_export p.name p.filesystem p.client_list exp
  else
    match exp with
    | some _ => .ok true [ExportCall.delete]
    | none => .ok false []

/-- C2: the permission comparison of `update_export` is insensitive to
order — permutation-equivalent permission lists are judged equal, so
reconciling an export whose current permissions are a permutation of the
desired `client_list` issues no update and reports changed=false — and
duplicate-by-value entries collapse in the comparison. -/
theorem export_perm_comparison_order_insensitive :
    (∀ l1 l2 : List PermEntry, l1.Perm l2 →
        permSetEq l1 l2 = true
        ∧ ∀ (path fs : String),
            export_main { name := path, state := "present", filesystem := fs,
                          client_list := some l2 } (some ())
              (some { export_path := path, permissions := l1 }) = .ok false [])
    ∧ ∀ (e : PermEntry) (l : List PermEntry), permSetEq (e :: e :: l) (e :: l) = true := by
  constructor
  · intro l1 l2 hperm
    have hts : l1.toFinset = l2.toFinset := List.toFinset_eq_of_perm _ _ hperm
    have heq : permSetEq l1 l2 = true := by simp [permSetEq, hts]
    refine ⟨heq, ?_⟩
    intro path fs
    by_cases h2 : l2 = []
    · subst h2
      simp [export_main, update_export]
    · simp [export_main, update_export, h2, heq]
  · intro e l
    simp [permSetEq]

/-- Two concrete permission entries used to witness C2. -/
def permEntryA : PermEntry := { client := "192.168.0.2", access := "RW", no_root_squash := true }

/-- Second concrete permission entry used to witness C2. -/
def permEntryB : PermEntry := { client := "192.168.0.100", access := "RO", no_root_squash := false }

/-- Witness for C2 at a concrete two-entry permutation. -/
theorem export_perm_comparison_order_insensitive_witness :
    permSetEq [permEntryA, permEntryB] [permEntryB, permEntryA] = true
    ∧ export_main { name := "/data01", state := "present", filesystem := "fs01",
                    client_list := some [permEntryB, permEntryA] } (some ())
        (some { export_path := "/data01", permissions := [permEntryA, permEntryB] })
        = .ok false [] := by
  have h := export_perm_comparison_order_insensitive.1
    [permEntryA, permEntryB] [permEntryB, permEntryA] (by decide)
  exact ⟨h.1, h.2 "/data01" "fs01"⟩

/-- C4 counterexample: creating an export with no `client_list` issues
only the create call — in particular no `update_permissions` call with
the all-hosts default entry — so the creation path itself does not
establish the default permission set. -/
theorem export_create_issues_no_permission_call :
    export_main { name := "/data01", state := "present", filesystem := "fs01",
                  client_list := none } (some ()) none
      = .ok true [ExportCall.create "/data01" "fs01"]
    ∧ ¬ (ExportCall.updatePermissions
          [{ client := "*", access := "RW", no_root_squash := true }]
        ∈ (export_main { name := "/data01", state := "present", filesystem := "fs01",
                         client_list := none } (some ()) none).calls) := by
  exact ⟨by decide, by decide⟩

/-- C4 amended: when an export is created with no `client_list`
supplied, the module issues exactly the create call and reports
changed=true; it establishes no permission entries itself (any all-hosts
RW/no_root_squash default is the array's own, per §9 of the spec). -/
theorem export_create_without_client_list (path fs : String) :
    export_main { name := path, state := "present", filesystem := fs, client_list := none }
        (some ()) none
      = .ok true [ExportCall.create path fs] := by
  simp [export_main, update_export]

/-! ## infini_export_client

`update_client` walks the current permission list, rewriting every
entry whose `client` matches (access / no_root_squash set to the given
values, each flagged as a change only when it differs), appends a new
entry when none matched, and pushes the whole list when anything
changed. `delete_client` deletes matching entries with
`del client_list[index]` **while iterating with `enumerate` over the
live list**, which is modelled below exactly (Python's list iterator
fetches position `i` of the current list and then advances). -/

/-- The loop of `update_client` over the current permission list:
returns the rewritten list, the accumulated changed flag, and the
`client_not_in_list` flag. -/
def updateClientList (client access : String) (nrs : Bool) :
    List PermEntry → List PermEntry × Bool × Bool
  | [] => ([], false, true)
  | e :: rest =>
    let r := updateClientList client access nrs rest
    if e.client = client then
      let c := decide (e.access ≠ access) || decide (e.no_root_squash ≠ nrs)
      ({ e with access := access, no_root_squash := nrs } :: r.1, c || r.2.1, false)
    else
      (e :: r.1, r.2.1, r.2.2)

/-- `update_client` of `infini_export_client.py`, on the permission list
read from the export: targeted upsert of one entry by client key,
pushing the updated list via `update_permissions` iff anything changed. -/
def update_client (client access : String) (nrs : Bool) (perms : List PermEntry) :
    ModuleResult ExportCall :=
  let r := updateClientList client access nrs perms
  let upd : List PermEntry × Bool :=
    if r.2.2 then (r.1 ++ [{ client := client, access := access, no_root_squash := nrs }], true)
    else (r.1, r.2.1)
  if upd.2 then .ok true [ExportCall.updatePermissions upd.1]
  else .ok false []

/-- The loop of `delete_client`, modelling CPython's list-iterator
semantics under in-place deletion: the iterator yields position `i` of
the *current* list and advances; `del client_list[i]` shifts the
successor into position `i`, which the next iteration then skips. The
fuel argument equals the initial list length, which bounds the number of
iterations (each iteration advances `i` by one and the loop stops once
`i` reaches the current length, which never grows). -/
def deleteClientLoop (client : String) :
    Nat → List PermEntry → Nat → Bool → List PermEntry × Bool
  | 0, l, _, changed => (l, changed)
  | fuel + 1, l, i, changed =>
    if h : i < l.length then
      if (l.get ⟨i, h⟩).client = client then
        deleteClientLoop client fuel (l.eraseIdx i) (i + 1) true
      else
        deleteClientLoop client fuel l (i + 1) changed
    else (l, changed)

/-- `delete_client` of `infini_export_client.py`, on the permission list
read from the export: deletes entries matching the client key while
iterating, and pushes the remaining list via `update_permissions` iff
anything was deleted. -/
def delete_client (client : String) (perms : List PermEntry) : ModuleResult ExportCall :=
  let r := deleteClientLoop client perms.length perms 0 false
  if r.2 then .ok true [ExportCall.updatePermissions r.1]
  else .ok false []

/-- Parameters of one `infini_export_client` invocation. -/
structure ExportClientParams where
  client : String
  access_mode : String
  no_root_squash : Bool
  state : String
  export_path : String
deriving DecidableEq, Repr

/-- `main` of `infini_export_client.py`: `get_export` fails the module
when the export is not found (`exportPerms = none`); otherwise
state=present dispatches to `update_client` and anything else to
`delete_client`, exactly as the source's if/else. -/
def export_client_main (p : ExportClientParams) (exportPerms : Option (List PermEntry)) :
    ModuleResult ExportCall :=
  if p.state ≠ "present" ∧ p.state ≠ "absent" then
    .fail "value of state must be one of: present, absent"
  else
    match exportPerms with
    | none => .fail ("Export with export path " ++ p.export_path ++ " not found")
    | some perms =>
      if p.state = "present" then update_client p.client p.access_mode p.no_root_squash perms
      else delete_client p.client perms

/-- C3: evaluating `delete_client` at two adjacent entries for the same
client key. Deleting during iteration shifts the second entry into the
just-vacated position, where the iterator skips it: the pushed
permission list still contains an entry whose client equals the key,
contradicting "removes all entries whose client field equals the key". -/
theorem delete_client_skips_adjacent_duplicate :
    export_client_main
        { client := "1.1.1.1", access_mode := "RW", no_root_squash := false,
          state := "absent", export_path := "/data01" }
        (some [{ client := "1.1.1.1", access := "RW", no_root_squash := false },
               { client := "1.1.1.1", access := "RO", no_root_squash := false }])
      = .ok true [ExportCall.updatePermissions
          [{ client := "1.1.1.1", access := "RO", no_root_squash := false }]]
    ∧ (([{ client := "1.1.1.1", access := "RO", no_root_squash := false }] : List PermEntry).any
        (fun x => x.client == "1.1.1.1")) = true := by
  exact ⟨by decide, by decide⟩

/-- Entries whose client never matches the key pass through the
`update_client` loop unchanged, with no change flagged and
`client_not_in_list` still true. -/
theorem updateClientList_no_match (key access : String) (nrs : Bool)
    (l : List PermEntry) (h : ∀ x ∈ l, x.client ≠ key) :
    updateClientList key access nrs l = (l, false, true) := by
  induction l with
  | nil => rfl
  | cons p rest ih =>
    have hp : p.client ≠ key := h p (by simp)
    have hrest : ∀ x ∈ rest, x.client ≠ key := fun x hx => h x (by simp [hx])
    simp [updateClientList, hp, ih hrest]

/-- C5: reconciling an ExportClient (state=present, client "10.0.0.1",
access_mode "RO", default no_root_squash false) against an export whose
permissions contain exactly one entry for "10.0.0.1", with access "RW"
and no_root_squash false, reports changed=true and pushes the same
permission list with only that entry's access field changed to "RO";
every entry with a different client key is untouched. -/
theorem update_client_targeted_upsert (ep : String)
    (pre post : List PermEntry) (e : PermEntry)
    (hc : e.client = "10.0.0.1") (ha : e.access = "RW") (hn : e.no_root_squash = false)
    (hpre : ∀ x ∈ pre, x.client ≠ "10.0.0.1") (hpost : ∀ x ∈ post, x.client ≠ "10.0.0.1") :
    export_client_main
        { client := "10.0.0.1", access_mode := "RO", no_root_squash := false,
          state := "present", export_path := ep }
        (some (pre ++ e :: post))
      = .ok true [ExportCall.updatePermissions (pre ++ { e with access := "RO" } :: post)] := by
  obtain ⟨ec, ea, en⟩ := e
  dsimp at hc ha hn
  subst hc; subst ha; subst hn
  have hux : updateClientList "10.0.0.1" "RO" false
      (pre ++ { client := "10.0.0.1", access := "RW", no_root_squash := false } :: post)
      = (pre ++ { client := "10.0.0.1", access := "RO", no_root_squash := false } :: post,
         true, false) := by
    induction pre with
    | nil =>
      simp [updateClientList, updateClientList_no_match "10.0.0.1" "RO" false post hpost]
    | cons p pre ih =>
      have hp : p.client ≠ "10.0.0.1" := hpre p (by simp)
      simp [updateClientList, hp, ih (fun x hx => hpre x (by simp [hx]))]
  simp [export_client_main, update_client, hux]

/-- Witness for C5 at a concrete three-entry permission list. -/
theorem update_client_targeted_upsert_witness :
    export_client_main
        { client := "10.0.0.1", access_mode := "RO", no_root_squash := false,
          state := "present", export_path := "/data01" }
        (some [{ client := "2.2.2.2", access := "RW", no_root_squash := false },
               { client := "10.0.0.1", access := "RW", no_root_squash := false },
               { client := "3.3.3.3", access := "RO", no_root_squash := true }])
      = .ok true [ExportCall.updatePermissions
          [{ client := "2.2.2.2", access := "RW", no_root_squash := false },
           { client := "10.0.0.1", access := "RO", no_root_squash := false },
           { client := "3.3.3.3", access := "RO", no_root_squash := true }]] :=
  update_client_targeted_upsert "/data01"
    [{ client := "2.2.2.2", access := "RW", no_root_squash := false }]
    [{ client := "3.3.3.3", access := "RO", no_root_squash := true }]
    { client := "10.0.0.1", access := "RW", no_root_squash := false }
    rfl rfl rfl (by decide) (by decide)

/-! ## infini_vol and infini_fs -/

/-- Mutating Array-Client calls the volume module can issue
(`system.volumes.create`, `volume.update_size`, `volume.delete`). -/
inductive VolCall where
  | create (name pool : String)
  | updateSize (c : Nat)
  | delete
deriving DecidableEq, Repr

/-- Volume attributes as observed through `volume.get_size()`. -/
structure VolState where
  size : Nat
deriving DecidableEq, Repr

/-- Parameters of one `infini_vol` invocation. -/
structure VolParams where
  name : String
  state : String
  pool : String
  size : Option String
deriving DecidableEq, Repr

/-- `create_volume` of `infini_vol.py`: create in the pool, then set the
size (rounded up to 64 KiB) when one was supplied. -/
def create_volume (name pool : String) (size : Option Nat) : ModuleResult VolCall :=
  let base := [VolCall.create name pool]
  match size with
  | some s => .ok true (base ++ [VolCall.updateSize (Capacity.roundup s volAlign)])
  | none => .ok true base

/-- `update_volume` of `infini_vol.py`: when a size was supplied, round
it up to 64 KiB, compare with the volume's size and update on
difference. -/
def update_volume (size : Option Nat) (vol : VolState) : ModuleResult VolCall :=
  match size with
  | none => .ok false []
  | some s =>
    let sz := Capacity.roundup s volAlign
    if vol.size ≠ sz then .ok true [VolCall.updateSize sz]
    else .ok false []

/-- `main` of `infini_vol.py`: state and size validation, the pool
precondition (`Pool .. not found` regardless of desired state), then the
present/absent dispatch on the volume lookup. -/
def vol_main (p : VolParams) (pool : Option Unit) (volume : Option VolState) :
    ModuleResult VolCall :=
  if p.state ≠ "present" ∧ p.state ≠ "absent" then
    .fail "value of state must be one of: present, absent"
  else
    match parseOpt p.size with
    | none => .fail "size (Physical Capacity) should be defined in MB, GB, TB or PB units"
    | some sb =>
      if pool.isNone then .fail ("Pool " ++ p.pool ++ " not found")
      else if p.state = "present" then
        match volume with
        | none => create_volume p.name p.pool sb
        | some v => update_volume sb v
      else
        match volume with
        | some _ => .ok true [VolCall.delete]
        | none => .ok false []

/-- Mutating Array-Client calls the filesystem module can issue
(`system.filesystems.create`, `filesystem.update_size`,
`filesystem.delete`). -/
inductive FsCall where
  | create (name pool : String)
  | updateSize (c : Nat)
  | delete
deriving DecidableEq, Repr

/-- Filesystem attributes as observed through `filesystem.get_size()`. -/
structure FsState where
  size : Nat
deriving DecidableEq, Repr

/-- Parameters of one `infini_fs` invocation. -/
structure FsParams where
  name : String
  state : String
  pool : String
  size : Option String
deriving DecidableEq, Repr

/-- `create_filesystem` of `infini_fs.py`. -/
def create_filesystem (name pool : String) (size : Option Nat) : ModuleResult FsCall :=
  let base := [FsCall.create name pool]
  match size with
  | some s => .ok true (base ++ [FsCall.updateSize (Capacity.roundup s volAlign)])
  | none => .ok true base

/-- `update_filesystem` of `infini_fs.py`. -/
def update_filesystem (size : Option Nat) (fs : FsState) : ModuleResult FsCall :=
  match size with
  | none => .ok false []
  | some s =>
    let sz := Capacity.roundup s volAlign
    if fs.size ≠ sz then .ok true [FsCall.updateSize sz]
    else .ok false []

/-- `main` of `infini_fs.py`: state and size validation, the pool
precondition, then the present/absent dispatch on the filesystem
lookup. -/
def fs_main (p : FsParams) (pool : Option Unit) (filesystem : Option FsState) :
    ModuleResult FsCall :=
  if p.state ≠ "present" ∧ p.state ≠ "absent" then
    .fail "value of state must be one of: present, absent"
  else
    match parseOpt p.size with
    | none => .fail "size (Physical Capacity) should be defined in MB, GB, TB or PB units"
    | some sb =>
      if pool.isNone then .fail ("Pool " ++ p.pool ++ " not found")
      else if p.state = "present" then
        match filesystem with
        | none => create_filesystem p.name p.pool sb
        | some f => update_filesystem sb f
      else
        match filesystem with
        | some _ => .ok true [FsCall.delete]
        | none => .ok false []

/-! ## infini_host -/

/-- Mutating Array-Client calls the host module can issue
(`system.hosts.create`, `host.add_fc_port`, `host.map_volume`,
`host.delete`). -/
inductive HostCall where
  | create (name : String)
  | addFcPort (p : String)
  | mapVolume (v : String)
  | delete
deriving DecidableEq, Repr

/-- Parameters of one `infini_host` invocation (`wwns` defaults to the
empty list; `volume = none` when the parameter was not supplied). -/
structure HostParams where
  name : String
  state : String
  wwns : List String
  volume : Option String
deriving DecidableEq, Repr

/-- `create_host` of `infini_host.py`: create the host, add each wwn as
an FC port, and map the volume when one was named. -/
def create_host (p : HostParams) : ModuleResult HostCall :=
  let base := [HostCall.create p.name] ++ p.wwns.map HostCall.addFcPort
  match p.volume with
  | some v => .ok true (base ++ [HostCall.mapVolume v])
  | none => .ok true base

/-- `update_host` of `infini_host.py`: reports changed=false and does
nothing. -/
def update_host (_ : HostParams) : ModuleResult HostCall := .ok false []

/-- `main` of `infini_host.py`: state validation, then — before the
present/absent dispatch and regardless of the desired state — the
volume-existence check (`Volume .. not found` when a volume was named
but `system.volumes.get` raised), then the four-way dispatch on the
host lookup. -/
def host_main (p : HostParams) (host : Option Unit) (volumeFound : Bool) :
    ModuleResult HostCall :=
  if p.state ≠ "present" ∧ p.state ≠ "absent" then
    .fail "value of state must be one of: present, absent"
  else
    match p.volume with
    | some v =>
      if ¬ volumeFound then .fail ("Volume " ++ v ++ " not found")
      else host_dispatch p host
    | none => host_dispatch p host
where
  /-- The four-way present/absent dispatch at the end of `main`. -/
  host_dispatch (p : HostParams) (host : Option Unit) : ModuleResult HostCall :=
    match host with
    | some _ => if p.state = "present" then update_host p else .ok true [HostCall.delete]
    | none => if p.state = "absent" then .ok false [] else create_host p

/-! ## Capacity roundup properties -/

/-- Rounding up a multiple of the alignment is the identity. -/
theorem roundup_of_mul (a k : Nat) (ha : 0 < a) :
    Capacity.roundup (a * k) a = a * k := by
  unfold Capacity.roundup
  have h1 : a * k + a - 1 = a * k + (a - 1) := by omega
  rw [h1, Nat.mul_add_div ha, Nat.div_eq_of_lt (by omega), Nat.add_zero, Nat.mul_comm]

/-- C6: for every byte count `x` and alignment `a > 0`,
`Capacity.roundup x a` (as used with the 64 KiB alignment by
`update_volume` / `update_filesystem` and with 6·64 KiB by
`update_pool`) is divisible by `a`, is at least `x`, is the smallest
multiple of `a` that is ≥ `x`, and is idempotent. -/
theorem roundup_correct (x a : Nat) (ha : 0 < a) :
    a ∣ Capacity.roundup x a
    ∧ x ≤ Capacity.roundup x a
    ∧ (∀ m, a ∣ m → x ≤ m → Capacity.roundup x a ≤ m)
    ∧ Capacity.roundup (Capacity.roundup x a) a = Capacity.roundup x a := by
  refine ⟨⟨(x + a - 1) / a, (Nat.mul_comm a ((x + a - 1) / a)).symm⟩, ?_, ?_, ?_⟩
  · unfold Capacity.roundup
    have hdm := Nat.div_add_mod (x + a - 1) a
    have hlt : (x + a - 1) % a < a := Nat.mod_lt _ ha
    set q := (x + a - 1) / a with hq
    set r := (x + a - 1) % a with hr
    have : a * q + r = x + a - 1 := hdm
    calc x ≤ a * q := by omega
    _ = q * a := Nat.mul_comm a q
  · intro m hdvd hxm
    obtain ⟨k, hk⟩ := hdvd
    subst hk
    unfold Capacity.roundup
    have hd : a * (k + 1) = a * k + a := by rw [Nat.mul_add, Nat.mul_one]
    have hq : (x + a - 1) / a ≤ k := by
      have hlt : x + a - 1 < (k + 1) * a := by
        rw [Nat.mul_comm (k + 1) a, hd]; omega
      have h2 := (Nat.div_lt_iff_lt_mul ha).mpr hlt
      omega
    calc (x + a - 1) / a * a ≤ k * a := Nat.mul_le_mul_right a hq
    _ = a * k := Nat.mul_comm k a
  · obtain ⟨k, hk⟩ : a ∣ Capacity.roundup x a :=
      ⟨(x + a - 1) / a, (Nat.mul_comm a ((x + a - 1) / a)).symm⟩
    rw [hk, roundup_of_mul a k ha]

/-- Witness for C6 at `x = 100000` and the 64 KiB volume alignment
(roundup = 131072 = 2·65536): divisibility, lower bound, minimality at
the multiple 131072, and idempotence. -/
theorem roundup_correct_witness :
    volAlign ∣ Capacity.roundup 100000 volAlign
    ∧ 100000 ≤ Capacity.roundup 100000 volAlign
    ∧ Capacity.roundup 100000 volAlign ≤ 131072
    ∧ Capacity.roundup (Capacity.roundup 100000 volAlign) volAlign
        = Capacity.roundup 100000 volAlign :=
  ⟨(roundup_correct 100000 volAlign (by decide)).1,
   (roundup_correct 100000 volAlign (by decide)).2.1,
   (roundup_correct 100000 volAlign (by decide)).2.2.1 131072 ⟨2, by decide⟩ (by decide),
   (roundup_correct 100000 volAlign (by decide)).2.2.2⟩

/-- Rounding up is idempotent (helper shared by several theorems). -/
theorem roundup_idem (x a : Nat) (ha : 0 < a) :
    Capacity.roundup (Capacity.roundup x a) a = Capacity.roundup x a := by
  obtain ⟨k, hk⟩ : a ∣ Capacity.roundup x a :=
    ⟨(x + a - 1) / a, (Nat.mul_comm a ((x + a - 1) / a)).symm⟩
  rw [hk, roundup_of_mul a k ha]

/-! ## Pool field-wise update -/

/-- The physical-capacity change condition of `update_pool`. -/
def poolPhysDiff (size : Option Nat) (pool : PoolState) : Bool :=
  match size with
  | none => false
  | some s => decide (pool.physical_capacity ≠ Capacity.roundup s poolAlign)

/-- The virtual-capacity change condition of `update_pool`. -/
def poolVirtDiff (vsize : Option Nat) (pool : PoolState) : Bool :=
  match vsize with
  | none => false
  | some v => decide (pool.virtual_capacity ≠ Capacity.roundup v poolAlign)

/-- The ssd-cache change condition of `update_pool`. -/
def poolSsdDiff (ssd_cache : Bool) (pool : PoolState) : Bool :=
  decide (pool.ssd_enabled ≠ ssd_cache)

/-- C9: `update_pool` reports changed as the logical OR of the three
per-field change conditions; and reconciling a pool with only `vsize`
supplied (ssd flag matching) issues exactly one virtual-capacity update,
so the array's physical capacity is untouched. -/
theorem pool_update_fields_independent :
    (∀ (size vsize : Option Nat) (ssd : Bool) (pool : PoolState),
        (update_pool size vsize ssd pool).changed
          = (poolPhysDiff size pool || poolVirtDiff vsize pool || poolSsdDiff ssd pool))
    ∧ (∀ (pool : PoolState) (v : Nat), pool.ssd_enabled = true →
        pool.virtual_capacity ≠ Capacity.roundup v poolAlign →
        update_pool none (some v) true pool
          = .ok true [PoolCall.updateVirtualCapacity (Capacity.roundup v poolAlign)]
        ∧ applyPoolCalls (some pool) (update_pool none (some v) true pool).calls
          = some { pool with virtual_capacity := Capacity.roundup v poolAlign }) := by
  constructor
  · intro size vsize ssd pool
    cases size <;> cases vsize <;>
      simp [update_pool, poolPhysDiff, poolVirtDiff, poolSsdDiff, ModuleResult.changed,
            apply_ite (Prod.fst (β := List PoolCall))]
  · intro pool v hssd hne
    have hcalls : update_pool none (some v) true pool
        = .ok true [PoolCall.updateVirtualCapacity (Capacity.roundup v poolAlign)] := by
      simp [update_pool, hne, hssd]
    refine ⟨hcalls, ?_⟩
    rw [hcalls]
    simp [ModuleResult.calls, applyPoolCalls, applyPoolCall,
          roundup_idem v poolAlign (by decide)]

/-- The pool state of the C9 witness: physical = virtual = the rounded
10TB, ssd caching enabled. -/
def c9Pool : PoolState :=
  { physical_capacity := Capacity.roundup (10 * 1000 ^ 4) poolAlign,
    virtual_capacity := Capacity.roundup (10 * 1000 ^ 4) poolAlign,
    ssd_enabled := true }

/-- Witness for C9: updating only `vsize=300TB` on the 10TB pool issues
exactly the virtual-capacity update and leaves the physical capacity
unchanged in the resulting array state. -/
theorem pool_update_fields_independent_witness :
    update_pool none (some (300 * 1000 ^ 4)) true c9Pool
      = .ok true [PoolCall.updateVirtualCapacity (Capacity.roundup (300 * 1000 ^ 4) poolAlign)]
    ∧ applyPoolCalls (some c9Pool) (update_pool none (some (300 * 1000 ^ 4)) true c9Pool).calls
      = some { c9Pool with virtual_capacity := Capacity.roundup (300 * 1000 ^ 4) poolAlign } :=
  pool_update_fields_independent.2 c9Pool (300 * 1000 ^ 4) rfl (by decide)

/-! ## Absent / precondition behaviour of the five mains -/

/-- C7: for each of Pool, Volume, Filesystem, Export and Host, invoking
the module with state=absent when the resource does not exist (and the
kind's preconditions hold: valid sizes, pool / filesystem present,
volume parameter absent or resolvable) reports changed=false and issues
no mutating call. -/
theorem absent_nonexistent_is_noop :
    (∀ (p : PoolParams), p.state = "absent" →
        (parseOpt p.size).isSome = true → (parseOpt p.vsize).isSome = true →
        pool_main p none = .ok false [])
    ∧ (∀ (p : VolParams), p.state = "absent" → (parseOpt p.size).isSome = true →
        vol_main p (some ()) none = .ok false [])
    ∧ (∀ (p : FsParams), p.state = "absent" → (parseOpt p.size).isSome = true →
        fs_main p (some ()) none = .ok false [])
    ∧ (∀ (p : ExportParams), p.state = "absent" →
        export_main p (some ()) none = .ok false [])
    ∧ (∀ (p : HostParams) (volumeFound : Bool),
        p.state = "absent" → (p.volume = none ∨ volumeFound = true) →
        host_main p none volumeFound = .ok false []) := by
  refine ⟨?_, ?_, ?_, ?_, ?_⟩
  · intro p hst hs hv
    obtain ⟨nm, st, sz, vsz, ssd⟩ := p
    dsimp at hst; subst hst
    cases hps : parseOpt sz with
    | none => rw [hps] at hs; simp at hs
    | some sb =>
      cases hpv : parseOpt vsz with
      | none => rw [hpv] at hv; simp at hv
      | some vb => simp [pool_main, hps, hpv]
  · intro p hst hs
    obtain ⟨nm, st, pl, sz⟩ := p
    dsimp at hst; subst hst
    cases hps : parseOpt sz with
    | none => rw [hps] at hs; simp at hs
    | some sb => simp [vol_main, hps]
  · intro p hst hs
    obtain ⟨nm, st, pl, sz⟩ := p
    dsimp at hst; subst hst
    cases hps : parseOpt sz with
    | none => rw [hps] at hs; simp at hs
    | some sb => simp [fs_main, hps]
  · intro p hst
    obtain ⟨nm, st, fs, cl⟩ := p
    dsimp at hst; subst hst
    simp [export_main]
  · intro p volumeFound hst hv
    obtain ⟨nm, st, wwns, vol⟩ := p
    dsimp at hst hv; subst hst
    cases hvol : vol with
    | none => simp [host_main, host_main.host_dispatch, hvol]
    | some v =>
      have hvf : volumeFound = true := by
        rcases hv with h | h
        · rw [hvol] at h; exact absurd h (by simp)
        · exact h
      subst hvf
      simp [host_main, host_main.host_dispatch]

/-- Concrete parameters witnessing C7 across all five kinds. -/
theorem absent_nonexistent_is_noop_witness :
    pool_main { name := "p1", state := "absent", size := some "10TB", vsize := none,
                ssd_cache := true } none = .ok false []
    ∧ vol_main { name := "v1", state := "absent", pool := "p1", size := none }
        (some ()) none = .ok false []
    ∧ fs_main { name := "f1", state := "absent", pool := "p1", size := some "1GB" }
        (some ()) none = .ok false []
    ∧ export_main { name := "/data01", state := "absent", filesystem := "f1",
                    client_list := none } (some ()) none = .ok false []
    ∧ host_main { name := "h1", state := "absent", wwns := [], volume := none } none false
        = .ok false [] :=
  ⟨absent_nonexistent_is_noop.1 _ rfl (by decide) (by decide),
   absent_nonexistent_is_noop.2.1 _ rfl (by decide),
   absent_nonexistent_is_noop.2.2.1 _ rfl (by decide),
   absent_nonexistent_is_noop.2.2.2.1 _ rfl,
   absent_nonexistent_is_noop.2.2.2.2 _ false rfl (Or.inl rfl)⟩

/-- C8: for Volume and Filesystem, when the declared pool does not exist
on the array the module fails with `Pool .. not found` — for both
desired states — and issues no mutating call. -/
theorem vol_fs_missing_pool_fails :
    (∀ (p : VolParams) (volume : Option VolState),
        (p.state = "present" ∨ p.state = "absent") → (parseOpt p.size).isSome = true →
        vol_main p none volume = .fail ("Pool " ++ p.pool ++ " not found")
        ∧ (vol_main p none volume).calls = [])
    ∧ (∀ (p : FsParams) (filesystem : Option FsState),
        (p.state = "present" ∨ p.state = "absent") → (parseOpt p.size).isSome = true →
        fs_main p none filesystem = .fail ("Pool " ++ p.pool ++ " not found")
        ∧ (fs_main p none filesystem).calls = []) := by
  constructor
  · intro p volume hst hs
    obtain ⟨nm, st, pl, sz⟩ := p
    dsimp at hst hs ⊢
    cases hps : parseOpt sz with
    | none => rw [hps] at hs; simp at hs
    | some sb =>
      rcases hst with h | h <;> subst h <;>
        exact ⟨by simp [vol_main, hps], by simp [vol_main, hps, ModuleResult.calls]⟩
  · intro p filesystem hst hs
    obtain ⟨nm, st, pl, sz⟩ := p
    dsimp at hst hs ⊢
    cases hps : parseOpt sz with
    | none => rw [hps] at hs; simp at hs
    | some sb =>
      rcases hst with h | h <;> subst h <;>
        exact ⟨by simp [fs_main, hps], by simp [fs_main, hps, ModuleResult.calls]⟩

/-- Witness for C8: a volume invocation with state=absent and a
filesystem invocation with state=present, each against a missing pool. -/
theorem vol_fs_missing_pool_fails_witness :
    vol_main { name := "v1", state := "absent", pool := "nopool", size := some "10TB" }
        none none = .fail "Pool nopool not found"
    ∧ fs_main { name := "f1", state := "present", pool := "nopool", size := none }
        none none = .fail "Pool nopool not found" :=
  ⟨(vol_fs_missing_pool_fails.1 _ none (Or.inr rfl) (by decide)).1,
   (vol_fs_missing_pool_fails.2 _ none (Or.inl rfl) (by decide)).1⟩

/-- C10: when a volume parameter is supplied and the named volume does
not resolve on the array, the host module fails with `Volume .. not
found` before the present/absent dispatch — for both desired states and
whether or not the host exists — and issues no mutating call. -/
theorem host_missing_volume_fails (p : HostParams) (host : Option Unit) (v : String)
    (hst : p.state = "present" ∨ p.state = "absent") (hv : p.volume = some v) :
    host_main p host false = .fail ("Volume " ++ v ++ " not found")
    ∧ (host_main p host false).calls = [] := by
  obtain ⟨nm, st, wwns, vol⟩ := p
  dsimp at hst hv ⊢
  subst hv
  rcases hst with h | h <;> subst h <;>
    exact ⟨by simp [host_main], by simp [host_main, ModuleResult.calls]⟩

/-- Witness for C10: state=absent, host not found, volume "vol1" not
found — the module fails rather than reporting changed=false. -/
theorem host_missing_volume_fails_witness :
    host_main { name := "h1", state := "absent", wwns := [], volume := some "vol1" }
        none false = .fail "Volume vol1 not found" :=
  (host_missing_volume_fails
    { name := "h1", state := "absent", wwns := [], volume := some "vol1" }
    none "vol1" (Or.inr rfl) rfl).1
